import Mathlib

/-!
Shallow embedding of the dispatch-and-scheduling core of the glazier
platform-abstraction layer (X11 and web backends), together with proofs of
the behavioural properties stated in its specification.

Source files embedded:
- src/backend/x11/window.rs   (window state, timers, idle queue, invalidation,
  pointer/wheel normalization, handler gateway, destroy lifecycle)
- src/backend/x11/application.rs (window registry, event dispatch, shutdown)
- src/backend/web/window.rs   (wheel normalization, idle queue)

Machine integers are modelled as `Nat`/`Int` with explicit truncation where
the source truncates; fractional quantities (f64 coordinates, scale factors,
wheel deltas) are modelled as `ℚ` — every concrete value the source
manipulates in the embedded paths is exact in `ℚ`.
-/

namespace Glazier

/-! ## Pointer buttons (src/backend/x11/window.rs, `pointer_button`,
`pointer_buttons`)

`PointerButton` and the button-state bitset `PointerButtons` live in
`crate::pointer`, outside the embedded files.  Modelled from the spec:
"button-state bitset" over the canonical buttons
{Primary, Secondary, Auxiliary, X1, X2, None}; the bitset is modelled as a
duplicate-free list with membership, `with` adds a button, `without` removes
it. -/

inductive PointerButton where
  | none
  | primary
  | secondary
  | auxiliary
  | x1
  | x2
  deriving DecidableEq, Repr

/-- Modelled from the spec: bitset insertion (`PointerButtons::with`). -/
def buttonsWith (bs : List PointerButton) (b : PointerButton) : List PointerButton :=
  if b ∈ bs then bs else b :: bs

/-- Modelled from the spec: bitset removal (`PointerButtons::without`). -/
def buttonsWithout (bs : List PointerButton) (b : PointerButton) : List PointerButton :=
  bs.filter (fun x => x ≠ b)

namespace X11

/-- Embeds `pointer_button` (src/backend/x11/window.rs lines 1149-1164):
converts an X11 button detail code to a canonical button; codes 4 through 7
are scroll codes and map to `none`, unknown codes are logged and map to
`none`. -/
def pointer_button (button : Nat) : PointerButton :=
  match button with
  | 0 => .none
  | 1 => .primary
  | 2 => .auxiliary
  | 3 => .secondary
  | 4 | 5 | 6 | 7 => .none
  | 8 => .x1
  | 9 => .x2
  | _ => .none

/-- Embeds `pointer_buttons` (src/backend/x11/window.rs lines 1168-1184):
extracts held buttons from the `state` mask; `ButtonMask::M1` = bit 8,
`M2` = bit 9, `M3` = bit 10. -/
def pointer_buttons (mods : Nat) : List PointerButton :=
  let button_masks : List (Nat × PointerButton) :=
    [(256, .primary), (512, .auxiliary), (1024, .secondary)]
  button_masks.foldl
    (fun buttons mb => if mods &&& mb.1 ≠ 0 then buttonsWith buttons mb.2 else buttons) []

/-- The parts of a `PointerEvent` that the button-press/release claims are
about. -/
structure XPointerEvent where
  button : PointerButton
  buttons : List PointerButton
  deriving DecidableEq, Repr

/-- Embeds the button fields of `Window::base_pointer_event`
(src/backend/x11/window.rs lines 857-887): `mods = base | locked | latched`
truncated to 16 bits, `button = pointer_button detail`,
`buttons = pointer_buttons mods`. -/
def base_pointer_event (base locked latched : Nat) (detail : Nat) : XPointerEvent :=
  let mods := ((base ||| locked) ||| latched) % 65536
  { button := pointer_button detail
    buttons := pointer_buttons mods }

/-- Embeds `Window::handle_button_press` (src/backend/x11/window.rs lines
974-983): the xcb state field does not include the newly pressed button, so
it is added before dispatch. -/
def handle_button_press (base locked latched detail : Nat) : XPointerEvent :=
  let pointer_ev := base_pointer_event base locked latched detail
  { pointer_ev with buttons := buttonsWith pointer_ev.buttons pointer_ev.button }

/-- Embeds `Window::handle_button_release` (src/backend/x11/window.rs lines
985-992): the xcb state includes the newly released button, so it is removed
before dispatch. -/
def handle_button_release (base locked latched detail : Nat) : XPointerEvent :=
  let pointer_ev := base_pointer_event base locked latched detail
  { pointer_ev with buttons := buttonsWithout pointer_ev.buttons pointer_ev.button }

/-! ## Wheel handling and event-loop routing (C10)

`Window::handle_wheel` (src/backend/x11/window.rs lines 1014-1035) and the
`XinputButtonPress` arm of `AppInner::handle_event`
(src/backend/x11/application.rs lines 635-648). -/

/-- Embeds the delta computation of `Window::handle_wheel`
(src/backend/x11/window.rs lines 1017-1027): detail codes 4/5 are vertical
scroll (horizontal with shift), 6/7 horizontal; anything else is an error. -/
def handle_wheel_delta (detail : Nat) (is_shift : Bool) : Except String (Int × Int) :=
  if detail = 4 then .ok (if is_shift then (-120, 0) else (0, -120))
  else if detail = 5 then .ok (if is_shift then (120, 0) else (0, 120))
  else if detail = 6 then .ok (-120, 0)
  else if detail = 7 then .ok (120, 0)
  else .error "unexpected mouse wheel button"

/-- True on the `Err` result of `handle_wheel_delta`. -/
def isWheelErr : Except String (Int × Int) → Bool
  | .error _ => true
  | .ok _ => false

/-- Where the `XinputButtonPress` arm of `AppInner::handle_event` routes an
event. -/
inductive ButtonPressRoute where
  | wheel
  | buttonPress
  deriving DecidableEq, Repr

/-- Embeds the routing decision in the `XinputButtonPress` arm of
`AppInner::handle_event` (src/backend/x11/application.rs lines 640-647):
detail codes 4 through 7 go to `handle_wheel`, all others to
`handle_button_press`. -/
def route_button_press (detail : Nat) : ButtonPressRoute :=
  if 4 ≤ detail ∧ detail ≤ 7 then .wheel else .buttonPress

/-- Outcome of dispatching an `XinputButtonPress` event through
`AppInner::handle_event`. -/
inductive DispatchOutcome where
  | wheelDispatched (delta : Int × Int)
  | buttonPressDispatched
  | failed (msg : String)
  deriving DecidableEq, Repr

/-- Embeds the full `XinputButtonPress` dispatch: route per
`route_button_press`, and on the wheel route run `handle_wheel_delta`. -/
def dispatch_xinput_button_press (detail : Nat) (is_shift : Bool) : DispatchOutcome :=
  match route_button_press detail with
  | .wheel =>
    match handle_wheel_delta detail is_shift with
    | .ok d => .wheelDispatched d
    | .error e => .failed e
  | .buttonPress => .buttonPressDispatched

end X11

namespace Web

/-- Embeds the wheel-delta normalization of `setup_scroll_callback`
(src/backend/web/window.rs lines 265-300).  `delta_mode` constants from
web_sys: `DOM_DELTA_PIXEL = 0`, `DOM_DELTA_LINE = 1`, `DOM_DELTA_PAGE = 2`.
Page mode scales by the window's current device-independent size; an unknown
mode is logged and the event dropped (`none`). -/
def wheel_delta (delta_mode : Nat) (dx dy : ℚ) (size_dp_width size_dp_height : ℚ) :
    Option (ℚ × ℚ) :=
  if delta_mode = 0 then some (dx, dy)
  else if delta_mode = 1 then some (35 * dx, 35 * dy)
  else if delta_mode = 2 then some (size_dp_width * dx, size_dp_height * dy)
  else none

/-! ## Web idle queue (src/backend/web/window.rs, `IdleHandle`) -/

/-- Idle items of the web backend (src/backend/web/window.rs lines 110-113):
callbacks and tokens.  Callback closures are opaque; they are tagged with a
`Nat` identity. -/
inductive WebIdleKind where
  | callback (id : Nat)
  | token (tok : Nat)
  deriving DecidableEq, Repr

/-- Web idle-queue state: the queued items plus a count of wake signals
(animation-frame flushes requested so far). -/
structure WebIdleState where
  queue : List WebIdleKind
  wakes : Nat
  deriving DecidableEq, Repr

/-- Embeds the shared body of `IdleHandle::add_idle_callback` and
`IdleHandle::add_idle_token` (src/backend/web/window.rs lines 737-770): push
the item, then request an animation-frame flush only when the push made the
queue length 1 (the empty→non-empty transition). -/
def web_add_idle (s : WebIdleState) (k : WebIdleKind) : WebIdleState :=
  let queue := s.queue ++ [k]
  { queue := queue
    wakes := if queue.length = 1 then s.wakes + 1 else s.wakes }

/-- Embeds `IdleHandle::add_idle_callback` (src/backend/web/window.rs lines
737-754). -/
def add_idle_callback (s : WebIdleState) (id : Nat) : WebIdleState :=
  web_add_idle s (.callback id)

/-- Embeds `IdleHandle::add_idle_token` (src/backend/web/window.rs lines
756-770). -/
def add_idle_token (s : WebIdleState) (tok : Nat) : WebIdleState :=
  web_add_idle s (.token tok)

end Web

namespace X11

/-! ## X11 idle queue (src/backend/x11/window.rs, `IdleHandle`, `IdleKind`) -/

/-- Embeds `IdleKind` (src/backend/x11/window.rs lines 1218-1222); callback
closures are opaque and tagged with a `Nat` identity. -/
inductive IdleKind where
  | callback (id : Nat)
  | token (tok : Nat)
  | redraw
  deriving DecidableEq, Repr

/-- X11 idle-queue state: the queued items plus a count of wake signals
(bytes written to the idle pipe so far). -/
structure IdleState where
  queue : List IdleKind
  wakes : Nat
  deriving DecidableEq, Repr

/-- Embeds `IdleHandle::add_idle` (src/backend/x11/window.rs lines
1256-1259): push the item, then write one byte to the idle pipe —
unconditionally, on every addition. -/
def add_idle (s : IdleState) (idle : IdleKind) : IdleState :=
  { queue := s.queue ++ [idle]
    wakes := s.wakes + 1 }

/-- Embeds `IdleHandle::add_idle_callback` (src/backend/x11/window.rs lines
1245-1250). -/
def add_idle_callback (s : IdleState) (id : Nat) : IdleState :=
  add_idle s (.callback id)

/-- Embeds `IdleHandle::add_idle_token` (src/backend/x11/window.rs lines
1252-1254). -/
def add_idle_token (s : IdleState) (tok : Nat) : IdleState :=
  add_idle s (.token tok)

/-- Embeds `IdleHandle::schedule_redraw` (src/backend/x11/window.rs lines
1241-1243). -/
def schedule_redraw (s : IdleState) : IdleState :=
  add_idle s .redraw

/-! ## Handler gateway (src/backend/x11/window.rs, `Window::with_handler`) -/

/-- Result of a `std::sync::RwLock::write` call. -/
inductive LockResult where
  | acquired
  | err
  | blocked
  deriving DecidableEq, Repr

/-- Semantics of `std::sync::RwLock::write` as documented by the Rust
standard library: the call returns `Err` exactly when the lock is poisoned;
a `write` on a lock the current thread already holds does not return — it
deadlocks or panics (`blocked`). -/
def rwlock_write (held_by_current_thread : Bool) (poisoned : Bool) : LockResult :=
  if held_by_current_thread then .blocked
  else if poisoned then .err
  else .acquired

/-- Outcome of one attempt to call into the client handler through the
gateway. -/
inductive GatewayOutcome where
  | invoked
  | skipped
  | stuck
  deriving DecidableEq, Repr

/-- Embeds `Window::with_handler` (src/backend/x11/window.rs lines 477-502):
probe `self.invalid.write()` (on `Err`: log and return `None`, i.e. skip),
drop the probe guard, then `self.handler.write()`: `Ok` invokes the closure,
`Err` logs and returns `None` (skip).  Lock state is passed explicitly:
whether the current thread already holds the `invalid` or `handler` write
lock, and whether each lock is poisoned. -/
def with_handler (invalid_held handler_held : Bool)
    (invalid_poisoned handler_poisoned : Bool) : GatewayOutcome :=
  match rwlock_write invalid_held invalid_poisoned with
  | .blocked => .stuck
  | .err => .skipped
  | .acquired =>
    match rwlock_write handler_held handler_poisoned with
    | .blocked => .stuck
    | .err => .skipped
    | .acquired => .invoked

/-! ## Window lifecycle and outbound platform requests
(src/backend/x11/window.rs, `Window::destroy` and the `WindowHandle`
operations) -/

/-- Per-window lifecycle state: the `destroyed` flag
(src/backend/x11/window.rs line 459). -/
structure WState where
  destroyed : Bool
  deriving DecidableEq, Repr

/-- Outbound X11 requests the embedded window operations can issue. -/
inductive XRequest where
  | destroyWindow
  | mapWindow
  | configurePosition
  | configureSize
  | changeTitleProperty
  | changeCursorAttribute
  | configureStackAbove
  | setInputFocus
  | setNormalHints
  deriving DecidableEq, Repr

/-- Embeds `Window::destroy` (src/backend/x11/window.rs lines 516-521): if
the flag is not yet set, set it and issue one `destroy_window` request;
otherwise do nothing. -/
def destroy (s : WState) : WState × List XRequest :=
  if s.destroyed then (s, [])
  else ({ s with destroyed := true }, [.destroyWindow])

/-- Embeds `Window::close` (src/backend/x11/window.rs lines 571-573): calls
`destroy`. -/
def close (s : WState) : WState × List XRequest :=
  destroy s

/-- Embeds `Window::show` (src/backend/x11/window.rs lines 565-569), named
`show_window` because `show` is a Lean keyword: `map_window` unless
destroyed. -/
def show_window (s : WState) : WState × List XRequest :=
  if s.destroyed then (s, []) else (s, [.mapWindow])

/-- Embeds `Window::set_title` (src/backend/x11/window.rs lines 704-728):
returns early when destroyed, otherwise issues two property-change requests
(WM_NAME and _NET_WM_NAME). -/
def set_title (s : WState) : WState × List XRequest :=
  if s.destroyed then (s, [])
  else (s, [.changeTitleProperty, .changeTitleProperty])

/-- Embeds `Window::set_position` (src/backend/x11/window.rs lines 612-620):
issues a `configure_window` request with no check of the destroyed flag. -/
def set_position (s : WState) : WState × List XRequest :=
  (s, [.configurePosition])

/-- Embeds `Window::set_size` (src/backend/x11/window.rs lines 622-632):
issues a `configure_window` request with no check of the destroyed flag. -/
def set_size (s : WState) : WState × List XRequest :=
  (s, [.configureSize])

/-- Embeds `Window::resizable` (src/backend/x11/window.rs lines 576-581):
issues a normal-hints request with no check of the destroyed flag. -/
def set_resizable (s : WState) : WState × List XRequest :=
  (s, [.setNormalHints])

/-- Embeds `Window::set_cursor` (src/backend/x11/window.rs lines 730-756):
when the requested cursor is loadable it issues a window-attribute change,
with no check of the destroyed flag. -/
def set_cursor (s : WState) (cursor_loaded : Bool) : WState × List XRequest :=
  (s, if cursor_loaded then [.changeCursorAttribute] else [])

/-- Embeds `Window::bring_to_front_and_focus` (src/backend/x11/window.rs
lines 635-651): returns early when destroyed, otherwise restacks and sets
input focus. -/
def bring_to_front_and_focus (s : WState) : WState × List XRequest :=
  if s.destroyed then (s, [])
  else (s, [.configureStackAbove, .setInputFocus])

/-- The embedded `Window` operations, for quantifying over them. -/
inductive WOp where
  | destroy
  | close
  | show_window
  | set_title
  | set_position
  | set_size
  | set_resizable
  | set_cursor (cursor_loaded : Bool)
  | bring_to_front_and_focus
  deriving DecidableEq, Repr

/-- Dispatch table for `WOp`. -/
def apply_op : WOp → WState → WState × List XRequest
  | .destroy, s => destroy s
  | .close, s => close s
  | .show_window, s => show_window s
  | .set_title, s => set_title s
  | .set_position, s => set_position s
  | .set_size, s => set_size s
  | .set_resizable, s => set_resizable s
  | .set_cursor loaded, s => set_cursor s loaded
  | .bring_to_front_and_focus, s => bring_to_front_and_focus s

/-! ## Window registry and shutdown (src/backend/x11/application.rs) -/

/-- The mutable application state (src/backend/x11/application.rs lines
218-224): the quitting flag and the id → window table (represented by its
key list, which a `HashMap` keeps duplicate-free), plus whether
`finalize_quit` has run (the loop's bookkeeping resource was released). -/
structure AppState where
  quitting : Bool
  windows : List Nat
  finalized : Bool
  deriving DecidableEq, Repr

/-- Embeds `AppInner::remove_window` (src/backend/x11/application.rs lines
481-485): remove the entry for `id` and return the number of windows
remaining. -/
def remove_window (s : AppState) (id : Nat) : Nat × AppState :=
  let windows := s.windows.erase id
  (windows.length, { s with windows := windows })

/-- Embeds the `DestroyNotify` arm of `AppInner::handle_event`
(src/backend/x11/application.rs lines 696-716): notify the window's handler
(not modelled here), remove the window from the registry, and finalize the
quit when no windows are left and a quit was requested. -/
def handle_destroy_notify (s : AppState) (id : Nat) : AppState :=
  let res := remove_window s id
  if res.1 = 0 ∧ res.2.quitting then { res.2 with finalized := true } else res.2

/-- Embeds `Application::quit` (src/backend/x11/application.rs lines
255-273): set the quitting flag; with no windows left, finalize immediately,
otherwise request destroy of every window (the per-window destroy requests
are modelled by `Glazier.X11.destroy`). -/
def quit (s : AppState) : AppState :=
  if s.quitting then s
  else if s.windows.isEmpty then { s with quitting := true, finalized := true }
  else { s with quitting := true }

end X11

/-! ## Geometry: rectangles, scaling, the invalid region
(src/backend/x11/window.rs, `Window::add_invalid_rect`, `Window::render`,
`Window::invalidate`, `Window::invalidate_rect`)

`Rect`, `Scale` and `Region` are collaborators from `kurbo`,
`crate::scale` and `crate::region`, outside the embedded files; coordinates
are modelled as `ℚ`. -/

/-- An axis-aligned rectangle with rational coordinates. -/
structure QRect where
  x0 : ℚ
  y0 : ℚ
  x1 : ℚ
  y1 : ℚ
  deriving DecidableEq, Repr

/-- A horizontal/vertical scale-factor pair. -/
structure QScale where
  x : ℚ
  y : ℚ
  deriving DecidableEq, Repr

/-- Modelled from the spec: "physical pixel = DP × scale" — converting a
device-independent rectangle to pixels multiplies each coordinate by the
scale factor. -/
def rect_to_px (r : QRect) (s : QScale) : QRect :=
  ⟨r.x0 * s.x, r.y0 * s.y, r.x1 * s.x, r.y1 * s.y⟩

/-- Modelled from the spec: the inverse conversion from pixels to
device-independent units divides by the scale factor. -/
def rect_to_dp (r : QRect) (s : QScale) : QRect :=
  ⟨r.x0 / s.x, r.y0 / s.y, r.x1 / s.x, r.y1 / s.y⟩

/-- Modelled from the spec: a rectangle "expanded to whole device pixels" —
the minimum corner rounds down and the maximum corner rounds up (kurbo
`Rect::expand`). -/
def rect_expand (r : QRect) : QRect :=
  ⟨(⌊r.x0⌋ : ℤ), (⌊r.y0⌋ : ℤ), (⌈r.x1⌉ : ℤ), (⌈r.y1⌉ : ℤ)⟩

/-- A point lies in a rectangle (closed on all sides; the counterexamples
below use interior points, so the boundary convention is immaterial). -/
def rect_contains (r : QRect) (p : ℚ × ℚ) : Prop :=
  r.x0 ≤ p.1 ∧ p.1 ≤ r.x1 ∧ r.y0 ≤ p.2 ∧ p.2 ≤ r.y1

instance (r : QRect) (p : ℚ × ℚ) : Decidable (rect_contains r p) := by
  unfold rect_contains
  infer_instance

/-- Modelled from the spec: the invalid region is a "set of rectangles,
union semantics"; a point is covered when some rectangle of the region
contains it. -/
def region_covers (rs : List QRect) (p : ℚ × ℚ) : Prop :=
  ∃ r ∈ rs, rect_contains r p

instance (rs : List QRect) (p : ℚ × ℚ) : Decidable (region_covers rs p) := by
  unfold region_covers
  infer_instance

/-- The full invalidation pipeline applied to one rectangle by
`Window::add_invalid_rect` (src/backend/x11/window.rs line 665):
`rect.to_px(scale).expand().to_dp(scale)`. -/
def invalid_rect_for (scale : QScale) (r : QRect) : QRect :=
  rect_to_dp (rect_expand (rect_to_px r scale)) scale

/-- Claim-side definition, following the claim's words "clipped to the
window bounds": the rectangle intersected with `[0, width] × [0, height]`.
It exists only to be compared with what the source computes. -/
def rect_clip_to_bounds (r : QRect) (bounds : ℚ × ℚ) : QRect :=
  ⟨max r.x0 0, max r.y0 0, min r.x1 bounds.1, min r.y1 bounds.2⟩

namespace X11

/-- Per-window invalidation state (src/backend/x11/window.rs lines 450-471):
the destroyed flag, the scale, the device-independent window size and the
invalid region. -/
structure InvalState where
  destroyed : Bool
  scale : QScale
  size_dp : ℚ × ℚ
  invalid : List QRect
  deriving DecidableEq, Repr

/-- Embeds `Window::add_invalid_rect` (src/backend/x11/window.rs lines
653-667): add `rect.to_px(scale).expand().to_dp(scale)` to the invalid
region. -/
def add_invalid_rect (s : InvalState) (r : QRect) : InvalState :=
  { s with invalid := s.invalid ++ [invalid_rect_for s.scale r] }

/-- Embeds `Window::invalidate_rect` (src/backend/x11/window.rs lines
696-702): enlarge the invalid region, then request an animation frame (the
idle-queue side is `schedule_redraw`). -/
def invalidate_rect (s : InvalState) (r : QRect) : InvalState :=
  add_invalid_rect s r

/-- Embeds `Window::invalidate` (src/backend/x11/window.rs lines 688-694):
invalidate the whole device-independent window area. -/
def invalidate (s : InvalState) : InvalState :=
  add_invalid_rect s ⟨0, 0, s.size_dp.1, s.size_dp.2⟩

/-- Embeds `Window::render` (src/backend/x11/window.rs lines 550-563): call
`prepare_paint` on the handler (not modelled), then if the window is
destroyed return `Ok` without touching the region; otherwise swap the
invalid region for `EMPTY` and pass the swapped-out region to
`handler.paint`.  Returns the new state and the region passed to paint, if
any. -/
def render (s : InvalState) : InvalState × Option (List QRect) :=
  if s.destroyed then (s, none)
  else ({ s with invalid := [] }, some s.invalid)

/-! ## Timers (src/backend/x11/window.rs, `Window::next_timeout`,
`Window::run_timers`) -/

/-- A queued timer: deadline (instants modelled as `Nat`) and token. -/
structure TimerEntry where
  deadline : Nat
  token : Nat
  deriving DecidableEq, Repr

/-- Modelled from the spec: the timer min-heap, "ordered by deadline, ties
by insertion order" (the `Timer` ordering lives in `backend/shared`, outside
the embedded files).  The heap is represented by its sorted element
sequence: push inserts before the first strictly-later entry — after any
entries with an equal deadline, preserving insertion order — and pop takes
the head. -/
def heap_push : List TimerEntry → TimerEntry → List TimerEntry
  | [], e => [e]
  | x :: xs, e => if e.deadline < x.deadline then e :: x :: xs else x :: heap_push xs e

/-- Embeds `Window::next_timeout` (src/backend/x11/window.rs lines
1128-1134): the deadline of the earliest queued timer. -/
def next_timeout (q : List TimerEntry) : Option Nat :=
  q.head?.map TimerEntry.deadline

/-- Embeds `Window::run_timers` (src/backend/x11/window.rs lines 1136-1145):
while the earliest deadline is ≤ now, pop that timer and fire its token
through the handler.  The handler callback is modelled by `h`, mapping the
fired token to the timers the callback registers during the call (via
`WindowHandle::request_timer`, line 1452-1460, which pushes into the heap).
`fuel` bounds the loop, since a callback that keeps re-registering
already-expired timers keeps the source loop running as well; every theorem
below supplies enough fuel.  Returns the fired entries, in firing order, and
the final queue. -/
def run_timers (h : Nat → List TimerEntry) (now : Nat) :
    Nat → List TimerEntry → List TimerEntry × List TimerEntry
  | 0, q => ([], q)
  | fuel + 1, q =>
    match q with
    | [] => ([], [])
    | e :: rest =>
      if now < e.deadline then ([], e :: rest)
      else
        let q2 := (h e.token).foldl heap_push rest
        let res := run_timers h now fuel q2
        (e :: res.1, res.2)

end X11

end Glazier

namespace Glazier

/-- Helper for C9: the inserted button is a member of the result. -/
theorem mem_buttonsWith (bs : List Glazier.PointerButton) (b : Glazier.PointerButton) :
    b ∈ Glazier.buttonsWith bs b := by
  unfold Glazier.buttonsWith
  split
  · assumption
  · exact List.mem_cons_self b bs

/-- Helper for C9: the removed button is not a member of the result. -/
theorem not_mem_buttonsWithout (bs : List Glazier.PointerButton) (b : Glazier.PointerButton) :
    b ∉ Glazier.buttonsWithout bs b := by
  unfold Glazier.buttonsWithout
  simp

/-- C9: for every button-press event dispatched to the handler, the pointer
event's button-state bitset includes the triggering button (added before
dispatch even when the native state mask omits it); for every button-release
event, the bitset excludes the triggering button (removed before dispatch
even when the native state mask includes it). -/
theorem press_includes_release_excludes_button
    (base locked latched detail : Nat) :
    (X11.handle_button_press base locked latched detail).button ∈
      (X11.handle_button_press base locked latched detail).buttons ∧
    (X11.handle_button_release base locked latched detail).button ∉
      (X11.handle_button_release base locked latched detail).buttons := by
  constructor
  · exact mem_buttonsWith _ _
  · exact not_mem_buttonsWithout _ _

/-- C9 witness: concrete button press (primary, empty state mask) and release
(primary, state mask with bit 8 set). -/
theorem press_includes_release_excludes_button_witness :
    (X11.handle_button_press 0 0 0 1).button ∈
      (X11.handle_button_press 0 0 0 1).buttons ∧
    (X11.handle_button_release 256 0 0 1).button ∉
      (X11.handle_button_release 256 0 0 1).buttons :=
  ⟨(press_includes_release_excludes_button 0 0 0 1).1,
   (press_includes_release_excludes_button 256 0 0 1).2⟩

/-- C10: `handle_wheel` returns an error exactly for detail codes outside
4..=7, the event-loop dispatcher routes a button-press event to
`handle_wheel` exactly when its detail code is in 4..=7 (all other codes go
to `handle_button_press`), so a dispatched event never reaches the wheel
error branch. -/
theorem wheel_error_branch_unreachable (detail : Nat) (is_shift : Bool) :
    (∀ e, X11.dispatch_xinput_button_press detail is_shift ≠ .failed e) ∧
    (X11.route_button_press detail = .wheel ↔ (4 ≤ detail ∧ detail ≤ 7)) ∧
    (X11.isWheelErr (X11.handle_wheel_delta detail is_shift) = true ↔
      ¬(4 ≤ detail ∧ detail ≤ 7)) := by
  have hroute : X11.route_button_press detail = .wheel ↔ (4 ≤ detail ∧ detail ≤ 7) := by
    unfold X11.route_button_press
    split
    · simp [*]
    · simp [*]
  have herr : X11.isWheelErr (X11.handle_wheel_delta detail is_shift) = true ↔
      ¬(4 ≤ detail ∧ detail ≤ 7) := by
    unfold X11.handle_wheel_delta
    split_ifs with h4 h5 h6 h7
    all_goals simp [X11.isWheelErr]
    all_goals omega
  refine ⟨?_, hroute, herr⟩
  intro e
  unfold X11.dispatch_xinput_button_press
  unfold X11.route_button_press
  split_ifs with hin
  · have : ¬ X11.isWheelErr (X11.handle_wheel_delta detail is_shift) = true := by
      rw [herr]; simpa using hin
    cases hw : X11.handle_wheel_delta detail is_shift with
    | ok d => simp [hw]
    | error e2 => rw [hw] at this; simp [X11.isWheelErr] at this
  · simp

/-- C2: the code does not reject a re-entrant gateway call.  A call into
`with_handler` while the same thread's handler activation is in progress
(handler write lock held, nothing poisoned) ends in `stuck` —
`RwLock::write` deadlocks or panics on a re-entrant acquire and only returns
the logged-and-skipped `Err` on poisoning — whereas a non-re-entrant call
never gets stuck. -/
theorem reentrant_handler_call_blocks :
    X11.with_handler false true false false = .stuck ∧
    X11.with_handler false true false false ≠ .skipped ∧
    (∀ invalid_poisoned handler_poisoned : Bool,
      X11.with_handler false false invalid_poisoned handler_poisoned ≠ .stuck) := by
  decide

/-- C5: the code issues outbound X11 requests for a window whose destroyed
flag is set: `set_position`, `set_size` and `set_cursor` have no destroyed
check (while `set_title`, `show` and `bring_to_front_and_focus` do). -/
theorem destroyed_window_still_issues_requests :
    (X11.set_position ⟨true⟩).2 = [.configurePosition] ∧
    (X11.set_size ⟨true⟩).2 = [.configureSize] ∧
    (X11.set_cursor ⟨true⟩ true).2 = [.changeCursorAttribute] ∧
    (X11.set_position ⟨true⟩).2 ≠ [] ∧
    (X11.set_title ⟨true⟩).2 = [] ∧
    (X11.show_window ⟨true⟩).2 = [] := by
  decide

/-- C8: `Window::destroy` is idempotent and the destroyed flag is monotone:
the first call sets the flag and issues exactly one native destroy request,
every later call is a no-op issuing no request, and no embedded window
operation ever clears the flag. -/
theorem destroy_idempotent_and_flag_monotone :
    (∀ s : X11.WState, s.destroyed = false →
      (X11.destroy s).1.destroyed = true ∧ (X11.destroy s).2 = [.destroyWindow]) ∧
    (∀ s : X11.WState, s.destroyed = true → X11.destroy s = (s, [])) ∧
    (∀ (op : X11.WOp) (s : X11.WState), s.destroyed = true →
      (X11.apply_op op s).1.destroyed = true) := by
  refine ⟨?_, ?_, ?_⟩
  · rintro ⟨d⟩ h
    subst h
    simp [X11.destroy]
  · rintro ⟨d⟩ h
    subst h
    simp [X11.destroy]
  · rintro op ⟨d⟩ h
    subst h
    cases op <;>
      simp [X11.apply_op, X11.destroy, X11.close, X11.show_window, X11.set_title,
        X11.set_position, X11.set_size, X11.set_resizable, X11.set_cursor,
        X11.bring_to_front_and_focus]

/-- C8 witness: first destroy on a live window sets the flag with one
request, destroy on a destroyed window is a no-op, and `set_title` preserves
the flag. -/
theorem destroy_idempotent_and_flag_monotone_witness :
    ((X11.destroy ⟨false⟩).1.destroyed = true ∧
      (X11.destroy ⟨false⟩).2 = [.destroyWindow]) ∧
    X11.destroy ⟨true⟩ = (⟨true⟩, []) ∧
    (X11.apply_op .set_title ⟨true⟩).1.destroyed = true :=
  ⟨destroy_idempotent_and_flag_monotone.1 ⟨false⟩ rfl,
   destroy_idempotent_and_flag_monotone.2.1 ⟨true⟩ rfl,
   destroy_idempotent_and_flag_monotone.2.2 .set_title ⟨true⟩ rfl⟩

/-- C6: `remove_window id` removes the entry for `id` and returns the number
of windows remaining; after a quit request, a destroy confirmation finalizes
the shutdown exactly when it brings the remaining-window count to zero, and
finalization never happens while a window remains. -/
theorem remove_window_and_shutdown (s : X11.AppState) (id : Nat)
    (hnodup : s.windows.Nodup) (hq : s.quitting = true) (hf : s.finalized = false) :
    ((X11.remove_window s id).2.windows = s.windows.erase id ∧
      id ∉ (X11.remove_window s id).2.windows ∧
      (X11.remove_window s id).1 = (X11.remove_window s id).2.windows.length) ∧
    ((X11.handle_destroy_notify s id).finalized = true ↔ s.windows.erase id = []) ∧
    ((X11.handle_destroy_notify s id).windows ≠ [] →
      (X11.handle_destroy_notify s id).finalized = false) := by
  have hmem : id ∉ s.windows.erase id := hnodup.not_mem_erase
  refine ⟨⟨rfl, hmem, rfl⟩, ?_, ?_⟩
  · simp only [X11.handle_destroy_notify, X11.remove_window]
    by_cases he : s.windows.erase id = []
    · simp [he, hq]
    · have : (s.windows.erase id).length ≠ 0 := by
        simpa [List.length_eq_zero] using he
      simp only [this, hq, false_and, if_false, and_true]
      simp [hf, he]
  · intro hw
    simp only [X11.handle_destroy_notify, X11.remove_window] at hw ⊢
    by_cases he : s.windows.erase id = []
    · simp [he] at hw
      split at hw <;> simp_all
    · have : (s.windows.erase id).length ≠ 0 := by
        simpa [List.length_eq_zero] using he
      simp [this, hf]

/-- C6 witness: a quitting state with the single window 5; the destroy
confirmation for 5 empties the registry and finalizes. -/
theorem remove_window_and_shutdown_witness :
    ((X11.remove_window ⟨true, [5], false⟩ 5).2.windows = [] ∧
      5 ∉ (X11.remove_window ⟨true, [5], false⟩ 5).2.windows ∧
      (X11.remove_window ⟨true, [5], false⟩ 5).1 = 0) ∧
    (X11.handle_destroy_notify ⟨true, [5], false⟩ 5).finalized = true := by
  have h := remove_window_and_shutdown ⟨true, [5], false⟩ 5 (by decide) rfl rfl
  refine ⟨⟨h.1.1.trans (by decide), h.1.2.1, h.1.2.2.trans ?_⟩, h.2.1.mpr (by decide)⟩
  rw [h.1.1]
  decide

/-- Helper for C4: folding `invalidate_rect` over a list of rectangles
appends their pipeline images to the invalid region and changes nothing
else. -/
theorem foldl_invalidate_rect_eq (rs : List QRect) :
    ∀ s : X11.InvalState,
      rs.foldl X11.invalidate_rect s =
        { s with invalid := s.invalid ++ rs.map (invalid_rect_for s.scale) } := by
  induction rs with
  | nil => intro s; simp
  | cons r rest ih =>
    intro s
    simp only [List.foldl_cons, List.map_cons]
    rw [ih]
    simp [X11.invalidate_rect, X11.add_invalid_rect]

/-- C4 counterexample: with scale 1 on a 100×100 window, invalidating the
rectangle (150,150)-(200,200) makes render receive a region covering the
point (160,160), which the union clipped to the window bounds does not
cover — the region passed to render is not clipped. -/
theorem render_region_not_clipped_counterexample :
    region_covers
      ((X11.render (X11.invalidate_rect ⟨false, ⟨1, 1⟩, (100, 100), []⟩
        ⟨150, 150, 200, 200⟩)).2.getD []) (160, 160) ∧
    ¬ region_covers
      ([(⟨150, 150, 200, 200⟩ : QRect)].map
        (fun r => rect_clip_to_bounds (invalid_rect_for ⟨1, 1⟩ r) (100, 100)))
      (160, 160) := by
  constructor
  · simp only [X11.invalidate_rect, X11.add_invalid_rect, X11.render]
    norm_num [region_covers, rect_contains, invalid_rect_for, rect_to_px, rect_to_dp,
      rect_expand]
  · norm_num [region_covers, rect_contains, invalid_rect_for, rect_to_px, rect_to_dp,
      rect_expand, rect_clip_to_bounds]

/-- C4 amended: for any sequence of invalidate calls between two renders on
a live window, the region passed to render equals the union of the
invalidated rectangles, each expanded to whole device pixels — with no
clipping to the window bounds — and the invalid region is empty immediately
after render returns; a render on a destroyed window returns successfully
without touching the region. -/
theorem render_region_is_union_and_cleared (s0 : X11.InvalState) (rs : List QRect)
    (h0 : s0.invalid = []) (hd : s0.destroyed = false) :
    (X11.render (rs.foldl X11.invalidate_rect s0)).2 =
      some (rs.map (invalid_rect_for s0.scale)) ∧
    (X11.render (rs.foldl X11.invalidate_rect s0)).1.invalid = [] ∧
    (∀ p : ℚ × ℚ,
      region_covers ((X11.render (rs.foldl X11.invalidate_rect s0)).2.getD []) p ↔
        ∃ r ∈ rs, rect_contains (invalid_rect_for s0.scale r) p) ∧
    (∀ t : X11.InvalState, t.destroyed = true → X11.render t = (t, none)) := by
  rw [foldl_invalidate_rect_eq rs s0]
  refine ⟨?_, ?_, ?_, ?_⟩
  · simp [X11.render, hd, h0]
  · simp [X11.render, hd]
  · intro p
    simp [X11.render, hd, h0, region_covers]
  · intro t ht
    simp [X11.render, ht]

/-- C4 amended witness: one invalidated unit rectangle at scale 1 on a live
10×10 window reaches render unchanged and the region is empty afterwards. -/
theorem render_region_is_union_and_cleared_witness :
    (X11.render ([(⟨0, 0, 1, 1⟩ : QRect)].foldl X11.invalidate_rect
      ⟨false, ⟨1, 1⟩, (10, 10), []⟩)).2 =
      some [invalid_rect_for ⟨1, 1⟩ ⟨0, 0, 1, 1⟩] ∧
    (X11.render ([(⟨0, 0, 1, 1⟩ : QRect)].foldl X11.invalidate_rect
      ⟨false, ⟨1, 1⟩, (10, 10), []⟩)).1.invalid = [] := by
  have h := render_region_is_union_and_cleared ⟨false, ⟨1, 1⟩, (10, 10), []⟩
    [⟨0, 0, 1, 1⟩] rfl rfl
  exact ⟨h.1, h.2.1⟩

/-- Helper for C3: with callbacks that register nothing, `run_timers`
splits the sorted queue into the due prefix and the rest. -/
theorem run_timers_no_rereg (h : Nat → List X11.TimerEntry) (now : Nat)
    (hh : ∀ t, h t = []) :
    ∀ (fuel : Nat) (q : List X11.TimerEntry),
      List.Sorted (fun a b => a.deadline ≤ b.deadline) q → q.length ≤ fuel →
      X11.run_timers h now fuel q =
        (q.filter (fun e => decide (e.deadline ≤ now)),
         q.filter (fun e => decide (now < e.deadline))) := by
  intro fuel
  induction fuel with
  | zero =>
    intro q hs hl
    have hq : q = [] := List.eq_nil_of_length_eq_zero (Nat.le_zero.mp hl)
    subst hq
    simp [X11.run_timers]
  | succ n ih =>
    intro q hs hl
    match q with
    | [] => simp [X11.run_timers]
    | e :: rest =>
      rw [X11.run_timers]
      by_cases hlt : now < e.deadline
      · rw [if_pos hlt]
        have hall : ∀ x ∈ e :: rest, now < x.deadline := by
          intro x hx
          rcases List.mem_cons.mp hx with hx | hx
          · exact hx ▸ hlt
          · exact lt_of_lt_of_le hlt ((List.sorted_cons.mp hs).1 x hx)
        have h1 : (e :: rest).filter (fun x => decide (x.deadline ≤ now)) = [] := by
          rw [List.filter_eq_nil_iff]
          intro x hx
          simpa using Nat.not_le.mpr (hall x hx)
        have h2 : (e :: rest).filter (fun x => decide (now < x.deadline)) = e :: rest := by
          rw [List.filter_eq_self]
          intro x hx
          simpa using hall x hx
        rw [h1, h2]
      · rw [if_neg hlt]
        have hle : e.deadline ≤ now := Nat.not_lt.mp hlt
        have hq2 : (h e.token).foldl X11.heap_push rest = rest := by
          rw [hh e.token]
          rfl
        simp only [hq2]
        rw [ih rest (List.sorted_cons.mp hs).2 (by simpa using Nat.le_of_succ_le_succ hl)]
        simp [hle, Nat.not_lt.mpr hle]

/-- C3 counterexample: with queue [(deadline 0, token 0)] and now = 5, a
callback that re-registers (deadline 1, token 1) sees the re-registered
timer fired within the same `run_timers` call — the fired list is not just
the originally due entry. -/
theorem rereg_timer_fired_in_same_call :
    ((⟨1, 1⟩ : X11.TimerEntry) ∈
      (X11.run_timers (fun t => if t = 0 then [⟨1, 1⟩] else []) 5 3 [⟨0, 0⟩]).1) ∧
    (X11.run_timers (fun t => if t = 0 then [⟨1, 1⟩] else []) 5 3 [⟨0, 0⟩]).1 ≠
      [⟨0, 0⟩] := by
  decide

/-- C3 amended: when no fired callback registers a new timer during the
call, `run_timers(now)` fires exactly the queued entries with deadline ≤
now, each exactly once, in non-decreasing deadline order, and leaves exactly
the entries with deadline > now in the queue; a timer re-registered from its
own callback is handled by a later iteration of the same while loop — never
recursively inside the callback — and is itself fired within the same call
when its deadline is ≤ now. -/
theorem run_timers_fires_due (h : Nat → List X11.TimerEntry) (now fuel : Nat)
    (q : List X11.TimerEntry) (hh : ∀ t, h t = [])
    (hs : List.Sorted (fun a b => a.deadline ≤ b.deadline) q)
    (hl : q.length ≤ fuel) :
    (X11.run_timers h now fuel q).1 = q.filter (fun e => decide (e.deadline ≤ now)) ∧
    (X11.run_timers h now fuel q).2 = q.filter (fun e => decide (now < e.deadline)) ∧
    List.Sorted (fun a b => a.deadline ≤ b.deadline) (X11.run_timers h now fuel q).1 ∧
    (∀ e ∈ (X11.run_timers h now fuel q).1, e.deadline ≤ now) ∧
    (∀ e ∈ (X11.run_timers h now fuel q).2, now < e.deadline) := by
  have hrun := run_timers_no_rereg h now hh fuel q hs hl
  have h1 : (X11.run_timers h now fuel q).1 =
      q.filter (fun e => decide (e.deadline ≤ now)) := by rw [hrun]
  have h2 : (X11.run_timers h now fuel q).2 =
      q.filter (fun e => decide (now < e.deadline)) := by rw [hrun]
  refine ⟨h1, h2, ?_, ?_, ?_⟩
  · rw [h1]
    exact hs.filter _
  · intro e he
    rw [h1] at he
    simpa using (List.mem_filter.mp he).2
  · intro e he
    rw [h2] at he
    simpa using (List.mem_filter.mp he).2

/-- C3 amended witness: queue [(1,10),(3,11),(7,12)], now = 3 — the first
two entries fire in order, the third remains. -/
theorem run_timers_fires_due_witness :
    (X11.run_timers (fun _ => []) 3 3 [⟨1, 10⟩, ⟨3, 11⟩, ⟨7, 12⟩]).1 =
      [⟨1, 10⟩, ⟨3, 11⟩] ∧
    (X11.run_timers (fun _ => []) 3 3 [⟨1, 10⟩, ⟨3, 11⟩, ⟨7, 12⟩]).2 = [⟨7, 12⟩] := by
  have h := run_timers_fires_due (fun _ => []) 3 3 [⟨1, 10⟩, ⟨3, 11⟩, ⟨7, 12⟩]
    (fun _ => rfl) (by decide) (by decide)
  exact ⟨h.1.trans (by decide), h.2.1.trans (by decide)⟩

/-- C7: line-mode wheel delta (dx=1, dy=0) normalizes to the pixel delta
(35, 0); a page-mode delta (dx, dy) normalizes to
(window_width_dp * dx, window_height_dp * dy) using the window's
device-independent size at event time; pixel-mode deltas pass through
unchanged. -/
theorem wheel_normalization (dx dy w h : ℚ) :
    Web.wheel_delta 1 1 0 w h = some (35, 0) ∧
    Web.wheel_delta 2 dx dy w h = some (w * dx, h * dy) ∧
    Web.wheel_delta 0 dx dy w h = some (dx, dy) := by
  refine ⟨?_, ?_, ?_⟩ <;> simp [Web.wheel_delta]

/-- Helper for C1: folding x11 `add_idle` adds one wake-pipe write per
item. -/
theorem x11_foldl_add_idle_wakes (adds : List X11.IdleKind) :
    ∀ s : X11.IdleState, (adds.foldl X11.add_idle s).wakes = s.wakes + adds.length := by
  induction adds with
  | nil => intro s; simp
  | cons a rest ih =>
    intro s
    simp only [List.foldl_cons, ih, X11.add_idle, List.length_cons]
    omega

/-- Helper for C1: folding web adds onto a non-empty queue requests no
further wake. -/
theorem web_foldl_no_wake_on_nonempty (adds : List Web.WebIdleKind) :
    ∀ s : Web.WebIdleState, s.queue ≠ [] →
      (adds.foldl Web.web_add_idle s).wakes = s.wakes := by
  induction adds with
  | nil => intro s _; simp
  | cons a rest ih =>
    intro s hne
    simp only [List.foldl_cons]
    rw [ih]
    · simp only [Web.web_add_idle]
      have : (s.queue ++ [a]).length = s.queue.length + 1 := by simp
      have hlen : s.queue.length ≠ 0 := by
        intro h; exact hne (List.eq_nil_of_length_eq_zero h)
      simp only [this]
      have : ¬ (s.queue.length + 1 = 1) := by omega
      simp [this]
    · simp [Web.web_add_idle]

/-- C1 counterexample: on the x11 backend two consecutive idle additions to
an initially empty queue write two wake signals to the idle pipe, not one. -/
theorem two_adds_two_wakes_counterexample :
    (X11.add_idle_token (X11.add_idle_token ⟨[], 0⟩ 0) 1).wakes = 2 ∧ (2 : Nat) ≠ 1 := by
  decide

/-- C1 amended: on the web backend an idle addition emits a wake
(animation-frame request) exactly when it makes the queue non-empty, so N
additions to an initially empty queue before the next flush emit exactly one
wake; on the x11 backend `add_idle` writes one wake byte on every addition,
so N additions emit N wake signals. -/
theorem idle_wake_per_backend (adds : List X11.IdleKind) (webAdds : List Web.WebIdleKind)
    (hne : webAdds ≠ []) :
    (adds.foldl X11.add_idle ⟨[], 0⟩).wakes = adds.length ∧
    (∀ (s : Web.WebIdleState) (k : Web.WebIdleKind),
      (Web.web_add_idle s k).wakes =
        if s.queue = [] then s.wakes + 1 else s.wakes) ∧
    (webAdds.foldl Web.web_add_idle ⟨[], 0⟩).wakes = 1 := by
  refine ⟨?_, ?_, ?_⟩
  · have := x11_foldl_add_idle_wakes adds ⟨[], 0⟩
    simpa using this
  · intro s k
    simp only [Web.web_add_idle]
    rcases s with ⟨q, w⟩
    cases q with
    | nil => simp
    | cons x xs => simp
  · cases webAdds with
    | nil => exact absurd rfl hne
    | cons a rest =>
      simp only [List.foldl_cons]
      rw [web_foldl_no_wake_on_nonempty]
      · simp [Web.web_add_idle]
      · simp [Web.web_add_idle]

/-- C1 amended witness: three token additions on each backend — one wake on
web, three on x11. -/
theorem idle_wake_per_backend_witness :
    ([X11.IdleKind.token 0, .token 1, .token 2].foldl X11.add_idle ⟨[], 0⟩).wakes = 3 ∧
    ([Web.WebIdleKind.token 0, .token 1, .token 2].foldl Web.web_add_idle ⟨[], 0⟩).wakes = 1 := by
  have h := idle_wake_per_backend
    [X11.IdleKind.token 0, .token 1, .token 2]
    [Web.WebIdleKind.token 0, .token 1, .token 2]
    (by decide)
  exact ⟨h.1, h.2.2⟩

end Glazier
